import Mathlib

/-! Shallow embedding of the three CRUD inventory services of this repository:
Energy.py (energy drinks), sneakers.py (sneakers) and app.py (cars).

Each service keeps one table; a table is modelled as the list of its rows in
natural (rowid) order together with the next id the store will assign.  A
handler that can raise is modelled as a pure function returning
`Except HTTPException result × newState`; the state component equals the input
state on every error path, since the handler raises before any commit.
Python `Optional` request parameters become `Option`; the Python truthiness
tests `if param:` guarding each filter become explicit truthiness helpers;
SQLAlchemy `.contains` (SQL LIKE with wildcards on both sides) becomes
substring containment; ORDER BY becomes a deterministic comparison sort.
The `float` rating column is modelled as `Rat`: the handlers only compare
ratings against the literals 0 and 5 and store caller-supplied values, with
no float arithmetic, so the embedding is exact.  `skip` and `limit` are
modelled as naturals; the specification only constrains behaviour for
`skip ≥ 0` and `limit > 0`. -/

/-- Truthiness of an optional string request parameter, as Python evaluates
`if param:` in the handlers: `None` and the empty string are falsy. -/
def strTruthy : Option String → Bool
  | none => false
  | some s => s != ""

/-- Truthiness of an optional integer request parameter, as Python evaluates
`if param:`: `None` and `0` are falsy. -/
def intTruthy : Option Int → Bool
  | none => false
  | some n => n != 0

/-- Boolean prefix test on character lists. -/
def isPrefixB : List Char → List Char → Bool
  | [], _ => true
  | _ :: _, [] => false
  | a :: as, b :: bs => a == b && isPrefixB as bs

/-- Boolean contiguous-substring test on character lists. -/
def isInfixB (needle : List Char) : List Char → Bool
  | [] => needle.isEmpty
  | b :: bs => isPrefixB needle (b :: bs) || isInfixB needle bs

/-- Substring containment, modelling SQLAlchemy `Column.contains(needle)`,
i.e. SQL LIKE with wildcards around the needle. -/
def strContains (hay needle : String) : Bool :=
  isInfixB needle.toList hay.toList

/-- Insertion into a list sorted by the boolean comparison `le`. -/
def insertLe (le : α → α → Bool) (x : α) : List α → List α
  | [] => [x]
  | y :: ys => if le x y then x :: y :: ys else y :: insertLe le x ys

/-- Deterministic stable insertion sort by a boolean comparison, modelling the
ORDER BY applied by the list handlers. -/
def sortLe (le : α → α → Bool) : List α → List α
  | [] => []
  | x :: xs => insertLe le x (sortLe le xs)

/-- Python `str.lower`, evaluated on the ASCII strings the handlers compare. -/
def lowerStr (s : String) : String :=
  String.mk (s.data.map Char.toLower)

/-- FastAPI HTTPException: a status code and a human-readable detail message.
Status 422 stands for the framework-level validation error FastAPI raises
before a handler runs when a query parameter violates its declared bounds. -/
structure HTTPException where
  status_code : Nat
  detail : String
deriving DecidableEq

/-- Result of the Python lookup `getattr(Model, name, None)` on a declarative
model class: a mapped column, carrying the ascending comparison ORDER BY uses
for it; some other class attribute, on which `asc` and `desc` do not exist so
that `order_by` raises AttributeError; or no attribute at all, in which case
the lookup returns the supplied default `None`. -/
inductive AttrLookup (α : Type) where
  | column (le : α → α → Bool)
  | nonColumn
  | absent

/-- Class attributes every SQLAlchemy declarative model class carries beyond
its mapped columns: the declarative metadata, registry, table and mapper
handles, the instrumentation bookkeeping, and the standard attributes every
Python class inherits from object.  `getattr` finds all of these, and calling
`asc` or `desc` on them raises AttributeError. -/
def nonColumnClassAttrs : List String :=
  ["metadata", "registry", "__tablename__", "__table__", "__mapper__",
   "_sa_class_manager", "_sa_registry", "__init__", "__new__", "__class__",
   "__dict__", "__doc__", "__module__", "__weakref__", "__delattr__",
   "__dir__", "__eq__", "__format__", "__ge__", "__getattribute__",
   "__gt__", "__hash__", "__init_subclass__", "__le__", "__lt__", "__ne__",
   "__reduce__", "__reduce_ex__", "__repr__", "__setattr__", "__sizeof__",
   "__str__", "__subclasshook__", "__getstate__"]

/-! Energy drinks (Energy.py). -/

/-- Row of the energy_drinks table (class EnergyDrink, Energy.py lines 15-22). -/
structure EnergyDrink where
  id : Int
  brand : String
  name : String
  volume_ml : Int
  price : Int
  stock : Int
deriving DecidableEq

/-- Request body of POST /energy-drinks/ (EnergyDrinkCreate, lines 27-32). -/
structure EnergyDrinkCreate where
  brand : String
  name : String
  volume_ml : Int
  price : Int
  stock : Int
deriving DecidableEq

/-- Request body of PUT /energy-drinks/{id} (EnergyDrinkUpdate, lines 34-39):
every field optional, `none` meaning not supplied, so that
`dict(exclude_unset=True)` contains exactly the `some` fields. -/
structure EnergyDrinkUpdate where
  brand : Option String
  name : Option String
  volume_ml : Option Int
  price : Option Int
  stock : Option Int
deriving DecidableEq

/-- The energy-drink store: rows in natural order plus the next assigned id. -/
structure EnergyDB where
  rows : List EnergyDrink
  nextId : Int
deriving DecidableEq

/-- The empty energy-drink store. -/
def EnergyDB.empty : EnergyDB := ⟨[], 1⟩

/-- The lookup `db.query(EnergyDrink).filter(EnergyDrink.id == i).first()`. -/
def findEnergyDrink (rows : List EnergyDrink) (i : Int) : Option EnergyDrink :=
  rows.find? (fun d => d.id == i)

/-- Committing a mutated ORM row: the stored row with the same id is replaced. -/
def replaceEnergyDrink (db : EnergyDB) (d : EnergyDrink) : EnergyDB :=
  ⟨db.rows.map (fun r => if r.id == d.id then d else r), db.nextId⟩

/-- Query parameters of GET /energy-drinks/ (read_energy_drinks, lines 63-71). -/
structure EnergyListParams where
  skip : Nat
  limit : Nat
  sort_by : Option String
  sort_order : String
  filter_brand : Option String
  filter_volume : Option Int
  search : Option String
deriving DecidableEq

/-- Filter section of read_energy_drinks (Energy.py lines 75-81): each filter
clause is attached only when its parameter is truthy; successive `.filter`
calls conjoin; `search` is a single OR across brand and name. -/
def energyFilterStage (p : EnergyListParams) (db : List EnergyDrink) : List EnergyDrink :=
  let query := db
  let query := if strTruthy p.filter_brand then
      query.filter (fun d => d.brand == p.filter_brand.getD "") else query
  let query := if intTruthy p.filter_volume then
      query.filter (fun d => d.volume_ml == p.filter_volume.getD 0) else query
  let query := if strTruthy p.search then
      query.filter (fun d => strContains d.brand (p.search.getD "") ||
        strContains d.name (p.search.getD "")) else query
  query

/-- The lookup `getattr(EnergyDrink, field, None)` (Energy.py line 85):
a mapped column with the comparison ORDER BY uses for it, a non-column class
attribute (such as metadata or __tablename__), or absent. -/
def energyGetAttr : String → AttrLookup EnergyDrink
  | "id" => .column (fun a b => decide (a.id ≤ b.id))
  | "brand" => .column (fun a b => (compare a.brand b.brand).isLE)
  | "name" => .column (fun a b => (compare a.name b.name).isLE)
  | "volume_ml" => .column (fun a b => decide (a.volume_ml ≤ b.volume_ml))
  | "price" => .column (fun a b => decide (a.price ≤ b.price))
  | "stock" => .column (fun a b => decide (a.stock ≤ b.stock))
  | f => if nonColumnClassAttrs.contains f then .nonColumn else .absent

/-- Sort section of read_energy_drinks (lines 83-90): when sort_by is truthy,
getattr is consulted; no attribute leaves natural order, a mapped column is
used for ORDER BY (descending exactly when `sort_order.lower() == "desc"`),
and any other class attribute makes `column.asc()` or `column.desc()` raise
AttributeError, surfaced by the framework as a 500. -/
def energySortStage (p : EnergyListParams) (q : List EnergyDrink) :
    Except HTTPException (List EnergyDrink) :=
  if strTruthy p.sort_by then
    match energyGetAttr (p.sort_by.getD "") with
    | .absent => .ok q
    | .nonColumn => .error ⟨500, "Internal Server Error"⟩
    | .column le =>
      if lowerStr p.sort_order == "desc" then .ok (sortLe (fun a b => le b a) q)
      else .ok (sortLe le q)
  else .ok q

/-- GET /energy-drinks/ (read_energy_drinks, lines 62-94): filters, then sort,
then pagination `query.offset(skip).limit(limit).all()`; a sort crash aborts
the request before any page is produced. -/
def read_energy_drinks (p : EnergyListParams) (db : EnergyDB) :
    Except HTTPException (List EnergyDrink) :=
  match energySortStage p (energyFilterStage p db.rows) with
  | .error e => .error e
  | .ok q => .ok ((q.drop p.skip).take p.limit)

/-- GET /energy-drinks/{id} (read_energy_drink, lines 96-101). -/
def read_energy_drink (drink_id : Int) (db : EnergyDB) :
    Except HTTPException EnergyDrink × EnergyDB :=
  match findEnergyDrink db.rows drink_id with
  | none => (.error ⟨404, "Energy drink not found"⟩, db)
  | some d => (.ok d, db)

/-- POST /energy-drinks/ (create_energy_drink, lines 103-109): the store
assigns a fresh id and appends the row. -/
def create_energy_drink (c : EnergyDrinkCreate) (db : EnergyDB) :
    EnergyDrink × EnergyDB :=
  let d : EnergyDrink := ⟨db.nextId, c.brand, c.name, c.volume_ml, c.price, c.stock⟩
  (d, ⟨db.rows ++ [d], db.nextId + 1⟩)

/-- The update loop of update_energy_drink (line 117-118): for each key present
in `dict(exclude_unset=True)`, setattr the row field to the supplied value. -/
def applyEnergyUpdate (u : EnergyDrinkUpdate) (d : EnergyDrink) : EnergyDrink :=
  { d with
    brand := u.brand.getD d.brand
    name := u.name.getD d.name
    volume_ml := u.volume_ml.getD d.volume_ml
    price := u.price.getD d.price
    stock := u.stock.getD d.stock }

/-- PUT /energy-drinks/{id} (update_energy_drink, lines 111-121). -/
def update_energy_drink (drink_id : Int) (u : EnergyDrinkUpdate) (db : EnergyDB) :
    Except HTTPException EnergyDrink × EnergyDB :=
  match findEnergyDrink db.rows drink_id with
  | none => (.error ⟨404, "Energy drink not found"⟩, db)
  | some d =>
    let d2 := applyEnergyUpdate u d
    (.ok d2, replaceEnergyDrink db d2)

/-- DELETE /energy-drinks/{id} (delete_energy_drink, lines 123-130). -/
def delete_energy_drink (drink_id : Int) (db : EnergyDB) :
    Except HTTPException Unit × EnergyDB :=
  match findEnergyDrink db.rows drink_id with
  | none => (.error ⟨404, "Energy drink not found"⟩, db)
  | some d => (.ok (), ⟨db.rows.filter (fun r => !(r.id == d.id)), db.nextId⟩)

/-- POST /energy-drinks/{id}/buy (buy_energy_drink, lines 132-143).  The
quantity is `none` when the client omitted it; the Python signature
`quantity: int = 1` then supplies the default 1. -/
def buy_energy_drink (drink_id : Int) (quantity : Option Int) (db : EnergyDB) :
    Except HTTPException EnergyDrink × EnergyDB :=
  let q := quantity.getD 1
  match findEnergyDrink db.rows drink_id with
  | none => (.error ⟨404, "Energy drink not found"⟩, db)
  | some d =>
    if d.stock < q then (.error ⟨400, "Not enough stock available"⟩, db)
    else
      let d2 := { d with stock := d.stock - q }
      (.ok d2, replaceEnergyDrink db d2)

/-- One public request against the energy-drink service. -/
inductive EnergyOp where
  | createE (c : EnergyDrinkCreate)
  | updateE (i : Int) (u : EnergyDrinkUpdate)
  | deleteE (i : Int)
  | buyE (i : Int) (q : Option Int)
  | getE (i : Int)
  | listE (p : EnergyListParams)
deriving DecidableEq

/-- State left by one energy-drink request; reads leave the store unchanged. -/
def energyStep (db : EnergyDB) : EnergyOp → EnergyDB
  | .createE c => (create_energy_drink c db).2
  | .updateE i u => (update_energy_drink i u db).2
  | .deleteE i => (delete_energy_drink i db).2
  | .buyE i q => (buy_energy_drink i q db).2
  | .getE i => (read_energy_drink i db).2
  | .listE _ => db

/-- Energy-drink store reached from the empty store by a request sequence. -/
def energyReach (ops : List EnergyOp) : EnergyDB :=
  ops.foldl energyStep EnergyDB.empty

/-! Sneakers (sneakers.py). -/

/-- Row of the sneakers table (class Sneaker, sneakers.py lines 15-21). -/
structure Sneaker where
  id : Int
  brand : String
  model : String
  price : Int
  rating : Rat
deriving DecidableEq

/-- Request body of POST /sneakers/ (SneakerCreate, lines 26-29). -/
structure SneakerCreate where
  brand : String
  model : String
  price : Int
deriving DecidableEq

/-- Request body of PUT /sneakers/{id} (SneakerUpdate, lines 31-35).  Note the
rating field carries no range constraint here, unlike the rate endpoint. -/
structure SneakerUpdate where
  brand : Option String
  model : Option String
  price : Option Int
  rating : Option Rat
deriving DecidableEq

/-- The sneaker store: rows in natural order plus the next assigned id. -/
structure SneakerDB where
  rows : List Sneaker
  nextId : Int
deriving DecidableEq

/-- The empty sneaker store. -/
def SneakerDB.empty : SneakerDB := ⟨[], 1⟩

/-- The lookup `db.query(Sneaker).filter(Sneaker.id == i).first()`. -/
def findSneaker (rows : List Sneaker) (i : Int) : Option Sneaker :=
  rows.find? (fun s => s.id == i)

/-- Committing a mutated ORM row: the stored row with the same id is replaced. -/
def replaceSneaker (db : SneakerDB) (s : Sneaker) : SneakerDB :=
  ⟨db.rows.map (fun r => if r.id == s.id then s else r), db.nextId⟩

/-- Query parameters of GET /sneakers/ (read_sneakers, lines 58-67). -/
structure SneakerListParams where
  skip : Nat
  limit : Nat
  sort_by : Option String
  sort_order : String
  filter_brand : Option String
  filter_price_min : Option Int
  filter_price_max : Option Int
  search : Option String
deriving DecidableEq

/-- Filter section of read_sneakers (sneakers.py lines 71-79). -/
def sneakerFilterStage (p : SneakerListParams) (db : List Sneaker) : List Sneaker :=
  let query := db
  let query := if strTruthy p.filter_brand then
      query.filter (fun s => s.brand == p.filter_brand.getD "") else query
  let query := if intTruthy p.filter_price_min then
      query.filter (fun s => decide (p.filter_price_min.getD 0 ≤ s.price)) else query
  let query := if intTruthy p.filter_price_max then
      query.filter (fun s => decide (s.price ≤ p.filter_price_max.getD 0)) else query
  let query := if strTruthy p.search then
      query.filter (fun s => strContains s.brand (p.search.getD "") ||
        strContains s.model (p.search.getD "")) else query
  query

/-- The lookup `getattr(Sneaker, field, None)` (sneakers.py line 83):
a mapped column with the comparison ORDER BY uses for it, a non-column class
attribute, or absent. -/
def sneakerGetAttr : String → AttrLookup Sneaker
  | "id" => .column (fun a b => decide (a.id ≤ b.id))
  | "brand" => .column (fun a b => (compare a.brand b.brand).isLE)
  | "model" => .column (fun a b => (compare a.model b.model).isLE)
  | "price" => .column (fun a b => decide (a.price ≤ b.price))
  | "rating" => .column (fun a b => decide (a.rating ≤ b.rating))
  | f => if nonColumnClassAttrs.contains f then .nonColumn else .absent

/-- Sort section of read_sneakers (lines 81-88); a truthy sort_by naming a
non-column class attribute raises AttributeError, surfaced as a 500. -/
def sneakerSortStage (p : SneakerListParams) (q : List Sneaker) :
    Except HTTPException (List Sneaker) :=
  if strTruthy p.sort_by then
    match sneakerGetAttr (p.sort_by.getD "") with
    | .absent => .ok q
    | .nonColumn => .error ⟨500, "Internal Server Error"⟩
    | .column le =>
      if lowerStr p.sort_order == "desc" then .ok (sortLe (fun a b => le b a) q)
      else .ok (sortLe le q)
  else .ok q

/-- GET /sneakers/ (read_sneakers, lines 57-92): filters, then sort, then
pagination; a sort crash aborts the request before any page is produced. -/
def read_sneakers (p : SneakerListParams) (db : SneakerDB) :
    Except HTTPException (List Sneaker) :=
  match sneakerSortStage p (sneakerFilterStage p db.rows) with
  | .error e => .error e
  | .ok q => .ok ((q.drop p.skip).take p.limit)

/-- GET /sneakers/{id} (read_sneaker, lines 94-99). -/
def read_sneaker (sneaker_id : Int) (db : SneakerDB) :
    Except HTTPException Sneaker × SneakerDB :=
  match findSneaker db.rows sneaker_id with
  | none => (.error ⟨404, "Sneaker not found"⟩, db)
  | some s => (.ok s, db)

/-- POST /sneakers/ (create_sneaker, lines 101-107): the new row carries the
supplied fields with rating initialised to 0.0. -/
def create_sneaker (c : SneakerCreate) (db : SneakerDB) : Sneaker × SneakerDB :=
  let s : Sneaker := ⟨db.nextId, c.brand, c.model, c.price, 0⟩
  (s, ⟨db.rows ++ [s], db.nextId + 1⟩)

/-- The update loop of update_sneaker (lines 115-116). -/
def applySneakerUpdate (u : SneakerUpdate) (s : Sneaker) : Sneaker :=
  { s with
    brand := u.brand.getD s.brand
    model := u.model.getD s.model
    price := u.price.getD s.price
    rating := u.rating.getD s.rating }

/-- PUT /sneakers/{id} (update_sneaker, lines 109-119). -/
def update_sneaker (sneaker_id : Int) (u : SneakerUpdate) (db : SneakerDB) :
    Except HTTPException Sneaker × SneakerDB :=
  match findSneaker db.rows sneaker_id with
  | none => (.error ⟨404, "Sneaker not found"⟩, db)
  | some s =>
    let s2 := applySneakerUpdate u s
    (.ok s2, replaceSneaker db s2)

/-- DELETE /sneakers/{id} (delete_sneaker, lines 121-128). -/
def delete_sneaker (sneaker_id : Int) (db : SneakerDB) :
    Except HTTPException Unit × SneakerDB :=
  match findSneaker db.rows sneaker_id with
  | none => (.error ⟨404, "Sneaker not found"⟩, db)
  | some s => (.ok (), ⟨db.rows.filter (fun r => !(r.id == s.id)), db.nextId⟩)

/-- POST /sneakers/{id}/rate (rate_sneaker, lines 130-143).  The rating query
parameter is declared `Query(..., ge=0, le=5)`, so FastAPI rejects an
out-of-range value with a validation error (422) before the handler body and
hence before any store access. -/
def rate_sneaker (sneaker_id : Int) (rating : Rat) (db : SneakerDB) :
    Except HTTPException Sneaker × SneakerDB :=
  if rating < 0 ∨ 5 < rating then
    (.error ⟨422, "Input validation error"⟩, db)
  else
    match findSneaker db.rows sneaker_id with
    | none => (.error ⟨404, "Sneaker not found"⟩, db)
    | some s =>
      let s2 := { s with rating := rating }
      (.ok s2, replaceSneaker db s2)

/-- One public request against the sneaker service. -/
inductive SneakerOp where
  | createS (c : SneakerCreate)
  | updateS (i : Int) (u : SneakerUpdate)
  | deleteS (i : Int)
  | rateS (i : Int) (r : Rat)
  | getS (i : Int)
  | listS (p : SneakerListParams)
deriving DecidableEq

/-- State left by one sneaker request; reads leave the store unchanged. -/
def sneakerStep (db : SneakerDB) : SneakerOp → SneakerDB
  | .createS c => (create_sneaker c db).2
  | .updateS i u => (update_sneaker i u db).2
  | .deleteS i => (delete_sneaker i db).2
  | .rateS i r => (rate_sneaker i r db).2
  | .getS i => (read_sneaker i db).2
  | .listS _ => db

/-- Sneaker store reached from the empty store by a request sequence. -/
def sneakerReach (ops : List SneakerOp) : SneakerDB :=
  ops.foldl sneakerStep SneakerDB.empty

/-! Cars (app.py). -/

/-- Row of the cars table (class Car, app.py lines 15-22). -/
structure Car where
  id : Int
  make : String
  model : String
  year : Int
  color : String
  views : Int
deriving DecidableEq

/-- Request body of POST /cars/ (CarCreate, lines 27-31). -/
structure CarCreate where
  make : String
  model : String
  year : Int
  color : String
deriving DecidableEq

/-- Request body of PUT /cars/{id} (CarUpdate, lines 33-37); views is not an
updatable field. -/
structure CarUpdate where
  make : Option String
  model : Option String
  year : Option Int
  color : Option String
deriving DecidableEq

/-- The car store: rows in natural order plus the next assigned id. -/
structure CarDB where
  rows : List Car
  nextId : Int
deriving DecidableEq

/-- The empty car store. -/
def CarDB.empty : CarDB := ⟨[], 1⟩

/-- The lookup `db.query(Car).filter(Car.id == i).first()`. -/
def findCar (rows : List Car) (i : Int) : Option Car :=
  rows.find? (fun c => c.id == i)

/-- Committing a mutated ORM row: the stored row with the same id is replaced. -/
def replaceCar (db : CarDB) (c : Car) : CarDB :=
  ⟨db.rows.map (fun r => if r.id == c.id then c else r), db.nextId⟩

/-- Query parameters of GET /cars/ (read_cars, lines 61-69). -/
structure CarListParams where
  skip : Nat
  limit : Nat
  sort_by : Option String
  sort_order : String
  filter_make : Option String
  filter_year : Option Int
  search : Option String
deriving DecidableEq

/-- Filter section of read_cars (app.py lines 73-79). -/
def carFilterStage (p : CarListParams) (db : List Car) : List Car :=
  let query := db
  let query := if strTruthy p.filter_make then
      query.filter (fun c => c.make == p.filter_make.getD "") else query
  let query := if intTruthy p.filter_year then
      query.filter (fun c => c.year == p.filter_year.getD 0) else query
  let query := if strTruthy p.search then
      query.filter (fun c => strContains c.make (p.search.getD "") ||
        strContains c.model (p.search.getD "")) else query
  query

/-- The lookup `getattr(Car, field, None)` (app.py line 83): a mapped column
with the comparison ORDER BY uses for it, a non-column class attribute, or
absent. -/
def carGetAttr : String → AttrLookup Car
  | "id" => .column (fun a b => decide (a.id ≤ b.id))
  | "make" => .column (fun a b => (compare a.make b.make).isLE)
  | "model" => .column (fun a b => (compare a.model b.model).isLE)
  | "year" => .column (fun a b => decide (a.year ≤ b.year))
  | "color" => .column (fun a b => (compare a.color b.color).isLE)
  | "views" => .column (fun a b => decide (a.views ≤ b.views))
  | f => if nonColumnClassAttrs.contains f then .nonColumn else .absent

/-- Sort section of read_cars (lines 81-88); a truthy sort_by naming a
non-column class attribute raises AttributeError, surfaced as a 500. -/
def carSortStage (p : CarListParams) (q : List Car) :
    Except HTTPException (List Car) :=
  if strTruthy p.sort_by then
    match carGetAttr (p.sort_by.getD "") with
    | .absent => .ok q
    | .nonColumn => .error ⟨500, "Internal Server Error"⟩
    | .column le =>
      if lowerStr p.sort_order == "desc" then .ok (sortLe (fun a b => le b a) q)
      else .ok (sortLe le q)
  else .ok q

/-- GET /cars/ (read_cars, lines 60-92): filters, then sort, then pagination;
a sort crash aborts the request before any page is produced. -/
def read_cars (p : CarListParams) (db : CarDB) :
    Except HTTPException (List Car) :=
  match carSortStage p (carFilterStage p db.rows) with
  | .error e => .error e
  | .ok q => .ok ((q.drop p.skip).take p.limit)

/-- GET /cars/{id} (read_car, lines 94-104): a successful get increments the
views counter of the row and commits before returning it; a miss raises 404
without touching the store. -/
def read_car (car_id : Int) (db : CarDB) : Except HTTPException Car × CarDB :=
  match findCar db.rows car_id with
  | none => (.error ⟨404, "Car not found"⟩, db)
  | some c =>
    let c2 := { c with views := c.views + 1 }
    (.ok c2, replaceCar db c2)

/-- POST /cars/ (create_car, lines 106-112): views initialised to 0. -/
def create_car (c : CarCreate) (db : CarDB) : Car × CarDB :=
  let r : Car := ⟨db.nextId, c.make, c.model, c.year, c.color, 0⟩
  (r, ⟨db.rows ++ [r], db.nextId + 1⟩)

/-- The update loop of update_car (lines 120-121). -/
def applyCarUpdate (u : CarUpdate) (c : Car) : Car :=
  { c with
    make := u.make.getD c.make
    model := u.model.getD c.model
    year := u.year.getD c.year
    color := u.color.getD c.color }

/-- PUT /cars/{id} (update_car, lines 114-124). -/
def update_car (car_id : Int) (u : CarUpdate) (db : CarDB) :
    Except HTTPException Car × CarDB :=
  match findCar db.rows car_id with
  | none => (.error ⟨404, "Car not found"⟩, db)
  | some c =>
    let c2 := applyCarUpdate u c
    (.ok c2, replaceCar db c2)

/-- DELETE /cars/{id} (delete_car, lines 126-133). -/
def delete_car (car_id : Int) (db : CarDB) :
    Except HTTPException Unit × CarDB :=
  match findCar db.rows car_id with
  | none => (.error ⟨404, "Car not found"⟩, db)
  | some c => (.ok (), ⟨db.rows.filter (fun r => !(r.id == c.id)), db.nextId⟩)

/-- One public request against the car service. -/
inductive CarOp where
  | createC (c : CarCreate)
  | updateC (i : Int) (u : CarUpdate)
  | deleteC (i : Int)
  | getC (i : Int)
  | listC (p : CarListParams)
deriving DecidableEq

/-- State left by one car request; note the get is itself a mutation. -/
def carStep (db : CarDB) : CarOp → CarDB
  | .createC c => (create_car c db).2
  | .updateC i u => (update_car i u db).2
  | .deleteC i => (delete_car i db).2
  | .getC i => (read_car i db).2
  | .listC _ => db

/-- Car store reached from the empty store by a request sequence. -/
def carReach (ops : List CarOp) : CarDB :=
  ops.foldl carStep CarDB.empty

/-! Specification-side predicates, written from the words of the claims for
refinement comparison against the filter stages embedded from the source. -/

/-- From the specification text, not the source: an energy-drink row satisfies
every supplied filter, and, when search is supplied, at least one of the
allow-listed text fields (brand, name) contains the search substring. -/
def energyMatchesSpec (p : EnergyListParams) (d : EnergyDrink) : Bool :=
  (match p.filter_brand with
   | none => true
   | some b => d.brand == b) &&
  (match p.filter_volume with
   | none => true
   | some v => d.volume_ml == v) &&
  (match p.search with
   | none => true
   | some s => strContains d.brand s || strContains d.name s)

/-- From the specification text, not the source: a sneaker row satisfies every
supplied filter, and, when search is supplied, at least one of the
allow-listed text fields (brand, model) contains the search substring. -/
def sneakerMatchesSpec (p : SneakerListParams) (s : Sneaker) : Bool :=
  (match p.filter_brand with
   | none => true
   | some b => s.brand == b) &&
  (match p.filter_price_min with
   | none => true
   | some v => decide (v ≤ s.price)) &&
  (match p.filter_price_max with
   | none => true
   | some v => decide (s.price ≤ v)) &&
  (match p.search with
   | none => true
   | some q => strContains s.brand q || strContains s.model q)

/-! Theorems for the claims. -/

/-- C1: for every existing drink id and every quantity (defaulting to 1 when
not supplied), if the quantity exceeds the current stock the buy fails with a
400 InvalidRequest and the store is unchanged; otherwise it succeeds,
decrements the stock by exactly the quantity, commits the decremented row and
returns the updated entity. -/
theorem buy_energy_drink_spec (db : EnergyDB) (i : Int) (quantity : Option Int)
    (d : EnergyDrink) (h : findEnergyDrink db.rows i = some d) :
    (d.stock < quantity.getD 1 →
      buy_energy_drink i quantity db =
        (.error ⟨400, "Not enough stock available"⟩, db)) ∧
    (¬ d.stock < quantity.getD 1 →
      buy_energy_drink i quantity db =
        (.ok { d with stock := d.stock - quantity.getD 1 },
          replaceEnergyDrink db { d with stock := d.stock - quantity.getD 1 })) := by
  unfold buy_energy_drink
  rw [h]
  constructor
  · intro hlt
    simp only [if_pos hlt]
  · intro hge
    simp only [if_neg hge]

/-- Witness for C1, following the scenario in the specification: stock 5,
buying 3 succeeds and leaves stock 2; buying 10 with stock 2 fails with 400
and leaves the store unchanged. -/
theorem buy_energy_drink_spec_witness :
    buy_energy_drink 1 (some 3) ⟨[⟨1, "X", "Y", 250, 100, 5⟩], 2⟩ =
      (.ok ⟨1, "X", "Y", 250, 100, 2⟩,
        replaceEnergyDrink ⟨[⟨1, "X", "Y", 250, 100, 5⟩], 2⟩ ⟨1, "X", "Y", 250, 100, 2⟩) ∧
    buy_energy_drink 1 (some 10) ⟨[⟨1, "X", "Y", 250, 100, 2⟩], 2⟩ =
      (.error ⟨400, "Not enough stock available"⟩, ⟨[⟨1, "X", "Y", 250, 100, 2⟩], 2⟩) :=
  ⟨(buy_energy_drink_spec ⟨[⟨1, "X", "Y", 250, 100, 5⟩], 2⟩ 1 (some 3)
      ⟨1, "X", "Y", 250, 100, 5⟩ rfl).2 (by decide),
   (buy_energy_drink_spec ⟨[⟨1, "X", "Y", 250, 100, 2⟩], 2⟩ 1 (some 10)
      ⟨1, "X", "Y", 250, 100, 2⟩ rfl).1 (by decide)⟩

/-- C5: for every existing sneaker id, a rating outside the closed interval
0 to 5 is rejected by parameter validation before any store access, leaving
the store unchanged, while an in-range rating replaces the rating of the
stored sneaker with exactly the supplied value. -/
theorem rate_sneaker_spec (db : SneakerDB) (i : Int) (r : Rat) (s : Sneaker)
    (h : findSneaker db.rows i = some s) :
    ((r < 0 ∨ 5 < r) →
      rate_sneaker i r db = (.error ⟨422, "Input validation error"⟩, db)) ∧
    (0 ≤ r → r ≤ 5 →
      rate_sneaker i r db =
        (.ok { s with rating := r }, replaceSneaker db { s with rating := r })) := by
  unfold rate_sneaker
  constructor
  · intro hr
    rw [if_pos hr]
  · intro h0 h5
    rw [if_neg (by simp only [not_or, not_lt]; exact ⟨h0, h5⟩)]
    rw [h]

/-- Witness for C5, following the scenario in the specification: rating 7 on
an existing sneaker is rejected with a validation error and the store is
unchanged; rating 4.5 replaces the rating with 4.5. -/
theorem rate_sneaker_spec_witness :
    rate_sneaker 1 7 ⟨[⟨1, "A", "M", 100, 0⟩], 2⟩ =
      (.error ⟨422, "Input validation error"⟩, ⟨[⟨1, "A", "M", 100, 0⟩], 2⟩) ∧
    rate_sneaker 1 (9 / 2) ⟨[⟨1, "A", "M", 100, 0⟩], 2⟩ =
      (.ok ⟨1, "A", "M", 100, 9 / 2⟩,
        replaceSneaker ⟨[⟨1, "A", "M", 100, 0⟩], 2⟩ ⟨1, "A", "M", 100, 9 / 2⟩) :=
  ⟨(rate_sneaker_spec ⟨[⟨1, "A", "M", 100, 0⟩], 2⟩ 1 7 ⟨1, "A", "M", 100, 0⟩ rfl).1
      (Or.inr (by norm_num)),
   (rate_sneaker_spec ⟨[⟨1, "A", "M", 100, 0⟩], 2⟩ 1 (9 / 2) ⟨1, "A", "M", 100, 0⟩ rfl).2
      (by norm_num) (by norm_num)⟩

/-- C8: for the car resource, a successful get increments the views counter of
exactly that car by 1 and commits it before returning the updated entity,
leaving all other fields unchanged, while a get of a missing id fails with 404
and mutates nothing. -/
theorem read_car_views_spec (db : CarDB) (i : Int) :
    (∀ c, findCar db.rows i = some c →
      read_car i db = (.ok { c with views := c.views + 1 },
        replaceCar db { c with views := c.views + 1 })) ∧
    (findCar db.rows i = none →
      read_car i db = (.error ⟨404, "Car not found"⟩, db)) := by
  constructor
  · intro c h
    unfold read_car
    rw [h]
  · intro h
    unfold read_car
    rw [h]

/-- Witness for C8: a get of a fresh car returns it with views 1, and three
successive gets of the fresh car leave its persisted views counter at 3. -/
theorem read_car_views_spec_witness :
    read_car 1 ⟨[⟨1, "Toyota", "Corolla", 2020, "red", 0⟩], 2⟩ =
      (.ok ⟨1, "Toyota", "Corolla", 2020, "red", 1⟩,
        replaceCar ⟨[⟨1, "Toyota", "Corolla", 2020, "red", 0⟩], 2⟩
          ⟨1, "Toyota", "Corolla", 2020, "red", 1⟩) ∧
    (read_car 1 ((read_car 1
        ((read_car 1 ⟨[⟨1, "Toyota", "Corolla", 2020, "red", 0⟩], 2⟩).2)).2)).2.rows =
      [⟨1, "Toyota", "Corolla", 2020, "red", 3⟩] :=
  ⟨(read_car_views_spec ⟨[⟨1, "Toyota", "Corolla", 2020, "red", 0⟩], 2⟩ 1).1
      ⟨1, "Toyota", "Corolla", 2020, "red", 0⟩ rfl,
   by decide⟩

/-- C2: for every store state, every skip and every positive limit, whenever
the list operation returns a page, that page is rows skip to skip+limit of
the sequence obtained by applying first the filters and then the sort to the
full table, and it holds at most limit entities.  A request whose sort stage
raises returns no page at all, so the property is stated over the successful
executions. -/
theorem list_pagination_spec (pE : EnergyListParams) (dbE : EnergyDB)
    (pS : SneakerListParams) (dbS : SneakerDB)
    (hE : 0 < pE.limit) (hS : 0 < pS.limit) :
    (∀ l, read_energy_drinks pE dbE = .ok l →
      (∃ q, energySortStage pE (energyFilterStage pE dbE.rows) = .ok q ∧
        l = (q.drop pE.skip).take pE.limit) ∧
      l.length ≤ pE.limit) ∧
    (∀ l, read_sneakers pS dbS = .ok l →
      (∃ q, sneakerSortStage pS (sneakerFilterStage pS dbS.rows) = .ok q ∧
        l = (q.drop pS.skip).take pS.limit) ∧
      l.length ≤ pS.limit) := by
  constructor
  · intro l h
    unfold read_energy_drinks at h
    cases hq : energySortStage pE (energyFilterStage pE dbE.rows) with
    | error e =>
      rw [hq] at h
      simp at h
    | ok q =>
      rw [hq] at h
      simp at h
      subst h
      exact ⟨⟨q, rfl, rfl⟩, List.length_take_le _ _⟩
  · intro l h
    unfold read_sneakers at h
    cases hq : sneakerSortStage pS (sneakerFilterStage pS dbS.rows) with
    | error e =>
      rw [hq] at h
      simp at h
    | ok q =>
      rw [hq] at h
      simp at h
      subst h
      exact ⟨⟨q, rfl, rfl⟩, List.length_take_le _ _⟩

/-- Witness for C2 at skip 1, limit 2 over a three-row table. -/
theorem list_pagination_spec_witness :
    ((∃ q, energySortStage ⟨1, 2, none, "asc", none, none, none⟩
        (energyFilterStage ⟨1, 2, none, "asc", none, none, none⟩
          [⟨1, "X", "Y", 250, 100, 5⟩, ⟨2, "P", "Q", 330, 80, 3⟩,
           ⟨3, "R", "S", 500, 120, 7⟩]) = .ok q ∧
      [⟨2, "P", "Q", 330, 80, 3⟩, ⟨3, "R", "S", 500, 120, 7⟩] = (q.drop 1).take 2) ∧
      ([⟨2, "P", "Q", 330, 80, 3⟩,
        ⟨3, "R", "S", 500, 120, 7⟩] : List EnergyDrink).length ≤ 2) ∧
    ((∃ q, sneakerSortStage ⟨0, 10, none, "asc", none, none, none, none⟩
        (sneakerFilterStage ⟨0, 10, none, "asc", none, none, none, none⟩
          [⟨1, "A", "M", 100, 0⟩]) = .ok q ∧
      [⟨1, "A", "M", 100, 0⟩] = (q.drop 0).take 10) ∧
      ([⟨1, "A", "M", 100, 0⟩] : List Sneaker).length ≤ 10) :=
  ⟨(list_pagination_spec ⟨1, 2, none, "asc", none, none, none⟩
      ⟨[⟨1, "X", "Y", 250, 100, 5⟩, ⟨2, "P", "Q", 330, 80, 3⟩,
        ⟨3, "R", "S", 500, 120, 7⟩], 4⟩
      ⟨0, 10, none, "asc", none, none, none, none⟩ ⟨[⟨1, "A", "M", 100, 0⟩], 2⟩
      (by decide) (by decide)).1
      [⟨2, "P", "Q", 330, 80, 3⟩, ⟨3, "R", "S", 500, 120, 7⟩] rfl,
   (list_pagination_spec ⟨1, 2, none, "asc", none, none, none⟩
      ⟨[⟨1, "X", "Y", 250, 100, 5⟩, ⟨2, "P", "Q", 330, 80, 3⟩,
        ⟨3, "R", "S", 500, 120, 7⟩], 4⟩
      ⟨0, 10, none, "asc", none, none, none, none⟩ ⟨[⟨1, "A", "M", 100, 0⟩], 2⟩
      (by decide) (by decide)).2 [⟨1, "A", "M", 100, 0⟩] rfl⟩

/-- C10: a filter parameter supplied with a falsy value, that is a numeric
filter supplied as 0 or a string filter supplied as the empty string, does
not restrict the result at all: the list operation returns the same rows as
the same request with that filter omitted, for every store state. -/
theorem falsy_filters_ignored (pE : EnergyListParams) (dbE : EnergyDB)
    (pS : SneakerListParams) (dbS : SneakerDB)
    (pC : CarListParams) (dbC : CarDB) :
    (read_energy_drinks { pE with filter_volume := some 0 } dbE =
      read_energy_drinks { pE with filter_volume := none } dbE) ∧
    (read_energy_drinks { pE with filter_brand := some "" } dbE =
      read_energy_drinks { pE with filter_brand := none } dbE) ∧
    (read_energy_drinks { pE with search := some "" } dbE =
      read_energy_drinks { pE with search := none } dbE) ∧
    (read_sneakers { pS with filter_price_min := some 0 } dbS =
      read_sneakers { pS with filter_price_min := none } dbS) ∧
    (read_sneakers { pS with filter_price_max := some 0 } dbS =
      read_sneakers { pS with filter_price_max := none } dbS) ∧
    (read_sneakers { pS with filter_brand := some "" } dbS =
      read_sneakers { pS with filter_brand := none } dbS) ∧
    (read_cars { pC with filter_year := some 0 } dbC =
      read_cars { pC with filter_year := none } dbC) ∧
    (read_cars { pC with filter_make := some "" } dbC =
      read_cars { pC with filter_make := none } dbC) := by
  obtain ⟨a1, a2, a3, a4, a5, a6, a7⟩ := pE
  obtain ⟨b1, b2, b3, b4, b5, b6, b7, b8⟩ := pS
  obtain ⟨c1, c2, c3, c4, c5, c6, c7⟩ := pC
  exact ⟨rfl, rfl, rfl, rfl, rfl, rfl, rfl, rfl⟩

/-- C9: update changes exactly the fields present in the partial request and
leaves every absent field (and the id) untouched; an empty partial leaves the
entity identical; update of a missing id fails with 404 and mutates nothing.
Stated for the energy-drink and sneaker services. -/
theorem partial_update_spec (dbE : EnergyDB) (i : Int) (u : EnergyDrinkUpdate)
    (dbS : SneakerDB) (j : Int) (v : SneakerUpdate) :
    (∀ d, findEnergyDrink dbE.rows i = some d →
      update_energy_drink i u dbE =
        (.ok (applyEnergyUpdate u d), replaceEnergyDrink dbE (applyEnergyUpdate u d)) ∧
      (u = ⟨none, none, none, none, none⟩ → applyEnergyUpdate u d = d) ∧
      (applyEnergyUpdate u d).id = d.id ∧
      (u.brand = none → (applyEnergyUpdate u d).brand = d.brand) ∧
      (∀ x, u.brand = some x → (applyEnergyUpdate u d).brand = x) ∧
      (u.name = none → (applyEnergyUpdate u d).name = d.name) ∧
      (∀ x, u.name = some x → (applyEnergyUpdate u d).name = x) ∧
      (u.volume_ml = none → (applyEnergyUpdate u d).volume_ml = d.volume_ml) ∧
      (∀ x, u.volume_ml = some x → (applyEnergyUpdate u d).volume_ml = x) ∧
      (u.price = none → (applyEnergyUpdate u d).price = d.price) ∧
      (∀ x, u.price = some x → (applyEnergyUpdate u d).price = x) ∧
      (u.stock = none → (applyEnergyUpdate u d).stock = d.stock) ∧
      (∀ x, u.stock = some x → (applyEnergyUpdate u d).stock = x)) ∧
    (findEnergyDrink dbE.rows i = none →
      update_energy_drink i u dbE = (.error ⟨404, "Energy drink not found"⟩, dbE)) ∧
    (∀ s, findSneaker dbS.rows j = some s →
      update_sneaker j v dbS =
        (.ok (applySneakerUpdate v s), replaceSneaker dbS (applySneakerUpdate v s)) ∧
      (v = ⟨none, none, none, none⟩ → applySneakerUpdate v s = s) ∧
      (applySneakerUpdate v s).id = s.id ∧
      (v.brand = none → (applySneakerUpdate v s).brand = s.brand) ∧
      (∀ x, v.brand = some x → (applySneakerUpdate v s).brand = x) ∧
      (v.model = none → (applySneakerUpdate v s).model = s.model) ∧
      (∀ x, v.model = some x → (applySneakerUpdate v s).model = x) ∧
      (v.price = none → (applySneakerUpdate v s).price = s.price) ∧
      (∀ x, v.price = some x → (applySneakerUpdate v s).price = x) ∧
      (v.rating = none → (applySneakerUpdate v s).rating = s.rating) ∧
      (∀ x, v.rating = some x → (applySneakerUpdate v s).rating = x)) ∧
    (findSneaker dbS.rows j = none →
      update_sneaker j v dbS = (.error ⟨404, "Sneaker not found"⟩, dbS)) := by
  refine ⟨?_, ?_, ?_, ?_⟩
  · intro d h
    unfold update_energy_drink
    rw [h]
    refine ⟨rfl, ?_, rfl, ?_, ?_, ?_, ?_, ?_, ?_, ?_, ?_, ?_, ?_⟩
    · rintro rfl
      exact rfl
    · intro hx
      simp [applyEnergyUpdate, hx]
    · intro x hx
      simp [applyEnergyUpdate, hx]
    · intro hx
      simp [applyEnergyUpdate, hx]
    · intro x hx
      simp [applyEnergyUpdate, hx]
    · intro hx
      simp [applyEnergyUpdate, hx]
    · intro x hx
      simp [applyEnergyUpdate, hx]
    · intro hx
      simp [applyEnergyUpdate, hx]
    · intro x hx
      simp [applyEnergyUpdate, hx]
    · intro hx
      simp [applyEnergyUpdate, hx]
    · intro x hx
      simp [applyEnergyUpdate, hx]
  · intro h
    unfold update_energy_drink
    rw [h]
  · intro s h
    unfold update_sneaker
    rw [h]
    refine ⟨rfl, ?_, rfl, ?_, ?_, ?_, ?_, ?_, ?_, ?_, ?_⟩
    · rintro rfl
      exact rfl
    · intro hx
      simp [applySneakerUpdate, hx]
    · intro x hx
      simp [applySneakerUpdate, hx]
    · intro hx
      simp [applySneakerUpdate, hx]
    · intro x hx
      simp [applySneakerUpdate, hx]
    · intro hx
      simp [applySneakerUpdate, hx]
    · intro x hx
      simp [applySneakerUpdate, hx]
    · intro hx
      simp [applySneakerUpdate, hx]
    · intro x hx
      simp [applySneakerUpdate, hx]
  · intro h
    unfold update_sneaker
    rw [h]

/-- Witness for C9: updating only the brand of an existing drink returns the
entity with only that field changed, and updating a missing sneaker id fails
with 404 leaving the empty store unchanged. -/
theorem partial_update_spec_witness :
    update_energy_drink 1 ⟨some "Z", none, none, none, none⟩
        ⟨[⟨1, "X", "Y", 250, 100, 5⟩], 2⟩ =
      (.ok (applyEnergyUpdate ⟨some "Z", none, none, none, none⟩ ⟨1, "X", "Y", 250, 100, 5⟩),
        replaceEnergyDrink ⟨[⟨1, "X", "Y", 250, 100, 5⟩], 2⟩
          (applyEnergyUpdate ⟨some "Z", none, none, none, none⟩ ⟨1, "X", "Y", 250, 100, 5⟩)) ∧
    update_sneaker 1 ⟨none, none, none, none⟩ ⟨[], 1⟩ =
      (.error ⟨404, "Sneaker not found"⟩, ⟨[], 1⟩) :=
  ⟨((partial_update_spec ⟨[⟨1, "X", "Y", 250, 100, 5⟩], 2⟩ 1
      ⟨some "Z", none, none, none, none⟩ ⟨[], 1⟩ 1 ⟨none, none, none, none⟩).1
      ⟨1, "X", "Y", 250, 100, 5⟩ rfl).1,
   (partial_update_spec ⟨[⟨1, "X", "Y", 250, 100, 5⟩], 2⟩ 1
      ⟨some "Z", none, none, none, none⟩ ⟨[], 1⟩ 1 ⟨none, none, none, none⟩).2.2.2 rfl⟩

/-- C6 is violated by the code: from the empty store, create a sneaker (rating
0) and then update it with rating 7 through the unvalidated update endpoint;
the reachable store now holds a sneaker whose rating is outside 0 to 5. -/
theorem sneaker_rating_invariant_violated :
    ((sneakerReach [SneakerOp.createS ⟨"A", "M", 100⟩,
        SneakerOp.updateS 1 ⟨none, none, none, some 7⟩]).rows.all
      (fun s => decide (0 ≤ s.rating) && decide (s.rating ≤ 5))) = false := by
  decide

/-- C7 is violated by the code: from the empty store, a single create request
carrying stock -5 is accepted, so the reachable store holds an energy drink
with negative stock. -/
theorem stock_invariant_violated :
    ((energyReach [EnergyOp.createE ⟨"X", "Y", 250, 100, -5⟩]).rows.all
      (fun d => decide (0 ≤ d.stock))) = false := by
  decide

/-- Helper: the empty needle is a substring of every list. -/
theorem isInfixB_nil (l : List Char) : isInfixB [] l = true := by
  induction l with
  | nil => rfl
  | cons b bs ih => simp [isInfixB, isPrefixB]

/-- Helper: every string contains the empty substring, as SQL LIKE with only
wildcards matches every value. -/
theorem strContains_empty (hay : String) : strContains hay "" = true :=
  isInfixB_nil hay.toList

/-- Helper: the energy filter stage is one filter by the conjunction of the
guarded clauses, each guard being the truthiness test of its parameter. -/
theorem energyFilterStage_eq_filter (p : EnergyListParams) (db : List EnergyDrink) :
    energyFilterStage p db = db.filter (fun d =>
      (!strTruthy p.search || (strContains d.brand (p.search.getD "") ||
        strContains d.name (p.search.getD ""))) &&
      ((!intTruthy p.filter_volume || (d.volume_ml == p.filter_volume.getD 0)) &&
       (!strTruthy p.filter_brand || (d.brand == p.filter_brand.getD "")))) := by
  cases h1 : strTruthy p.filter_brand <;> cases h2 : intTruthy p.filter_volume <;>
    cases h3 : strTruthy p.search <;>
    simp [energyFilterStage, h1, h2, h3, List.filter_filter]

/-- Helper: the sneaker filter stage is one filter by the conjunction of the
guarded clauses, each guard being the truthiness test of its parameter. -/
theorem sneakerFilterStage_eq_filter (p : SneakerListParams) (db : List Sneaker) :
    sneakerFilterStage p db = db.filter (fun s =>
      (!strTruthy p.search || (strContains s.brand (p.search.getD "") ||
        strContains s.model (p.search.getD ""))) &&
      ((!intTruthy p.filter_price_max || decide (s.price ≤ p.filter_price_max.getD 0)) &&
       ((!intTruthy p.filter_price_min || decide (p.filter_price_min.getD 0 ≤ s.price)) &&
        (!strTruthy p.filter_brand || (s.brand == p.filter_brand.getD ""))))) := by
  cases h1 : strTruthy p.filter_brand <;> cases h2 : intTruthy p.filter_price_min <;>
    cases h3 : intTruthy p.filter_price_max <;> cases h4 : strTruthy p.search <;>
    simp [sneakerFilterStage, h1, h2, h3, h4, List.filter_filter]

/-- C3 counterexample: with filter_volume supplied as 0 the energy list
returns a row whose volume is 250, which does not satisfy the supplied
filter, so the claim read literally over all supplied filter values fails. -/
theorem filters_literal_counterexample :
    ¬ (read_energy_drinks ⟨0, 10, none, "asc", none, some 0, none⟩
        ⟨[⟨1, "X", "Y", 250, 100, 5⟩], 2⟩ =
      .ok (List.filter (energyMatchesSpec ⟨0, 10, none, "asc", none, some 0, none⟩)
        [⟨1, "X", "Y", 250, 100, 5⟩])) := by
  intro h
  rw [show read_energy_drinks ⟨0, 10, none, "asc", none, some 0, none⟩
      ⟨[⟨1, "X", "Y", 250, 100, 5⟩], 2⟩ =
      Except.ok [⟨1, "X", "Y", 250, 100, 5⟩] from rfl] at h
  injection h with h2
  exact absurd h2 (by decide)

/-- C3 amended: when every supplied filter carries a non-falsy value, the
filter stage keeps exactly the rows satisfying every supplied filter AND,
when search is supplied, containing the search substring in at least one
allow-listed text field; the search clause is a single OR across those
fields conjoined with the other filters. -/
theorem filters_and_search_spec (pE : EnergyListParams) (dbE : List EnergyDrink)
    (hEb : pE.filter_brand ≠ some "") (hEv : pE.filter_volume ≠ some 0)
    (pS : SneakerListParams) (dbS : List Sneaker)
    (hSb : pS.filter_brand ≠ some "") (hSmin : pS.filter_price_min ≠ some 0)
    (hSmax : pS.filter_price_max ≠ some 0) :
    energyFilterStage pE dbE = dbE.filter (energyMatchesSpec pE) ∧
    sneakerFilterStage pS dbS = dbS.filter (sneakerMatchesSpec pS) := by
  constructor
  · rw [energyFilterStage_eq_filter]
    apply List.filter_congr
    intro d _
    have gb : (!strTruthy pE.filter_brand || (d.brand == pE.filter_brand.getD "")) =
        (match pE.filter_brand with
         | none => true
         | some b => d.brand == b) := by
      rcases hb : pE.filter_brand with _ | b
      · simp [strTruthy]
      · have hb2 : b ≠ "" := by
          intro h2
          exact hEb (by rw [hb, h2])
        simp [strTruthy, hb2]
    have gv : (!intTruthy pE.filter_volume || (d.volume_ml == pE.filter_volume.getD 0)) =
        (match pE.filter_volume with
         | none => true
         | some v => d.volume_ml == v) := by
      rcases hv : pE.filter_volume with _ | v
      · simp [intTruthy]
      · have hv2 : v ≠ 0 := by
          intro h2
          exact hEv (by rw [hv, h2])
        simp [intTruthy, hv2]
    have gs : (!strTruthy pE.search || (strContains d.brand (pE.search.getD "") ||
        strContains d.name (pE.search.getD ""))) =
        (match pE.search with
         | none => true
         | some s => strContains d.brand s || strContains d.name s) := by
      rcases hs : pE.search with _ | s
      · simp [strTruthy]
      · by_cases h0 : s = ""
        · subst h0
          simp [strTruthy, strContains_empty]
        · simp [strTruthy, h0]
    rw [gb, gv, gs]
    unfold energyMatchesSpec
    simp [Bool.and_assoc, Bool.and_comm, Bool.and_left_comm]
  · rw [sneakerFilterStage_eq_filter]
    apply List.filter_congr
    intro s _
    have gb : (!strTruthy pS.filter_brand || (s.brand == pS.filter_brand.getD "")) =
        (match pS.filter_brand with
         | none => true
         | some b => s.brand == b) := by
      rcases hb : pS.filter_brand with _ | b
      · simp [strTruthy]
      · have hb2 : b ≠ "" := by
          intro h2
          exact hSb (by rw [hb, h2])
        simp [strTruthy, hb2]
    have gmin : (!intTruthy pS.filter_price_min ||
        decide (pS.filter_price_min.getD 0 ≤ s.price)) =
        (match pS.filter_price_min with
         | none => true
         | some v => decide (v ≤ s.price)) := by
      rcases hv : pS.filter_price_min with _ | v
      · simp [intTruthy]
      · have hv2 : v ≠ 0 := by
          intro h2
          exact hSmin (by rw [hv, h2])
        simp [intTruthy, hv2]
    have gmax : (!intTruthy pS.filter_price_max ||
        decide (s.price ≤ pS.filter_price_max.getD 0)) =
        (match pS.filter_price_max with
         | none => true
         | some v => decide (s.price ≤ v)) := by
      rcases hv : pS.filter_price_max with _ | v
      · simp [intTruthy]
      · have hv2 : v ≠ 0 := by
          intro h2
          exact hSmax (by rw [hv, h2])
        simp [intTruthy, hv2]
    have gs : (!strTruthy pS.search || (strContains s.brand (pS.search.getD "") ||
        strContains s.model (pS.search.getD ""))) =
        (match pS.search with
         | none => true
         | some q => strContains s.brand q || strContains s.model q) := by
      rcases hq : pS.search with _ | q
      · simp [strTruthy]
      · by_cases h0 : q = ""
        · subst h0
          simp [strTruthy, strContains_empty]
        · simp [strTruthy, h0]
    rw [gb, gmin, gmax, gs]
    unfold sneakerMatchesSpec
    simp [Bool.and_assoc, Bool.and_comm, Bool.and_left_comm]

/-- Witness for the amended C3 at non-falsy filters with search supplied. -/
theorem filters_and_search_spec_witness :
    energyFilterStage ⟨0, 10, none, "asc", some "X", some 250, some "Y"⟩
        [⟨1, "X", "Y", 250, 100, 5⟩, ⟨2, "P", "Q", 330, 80, 3⟩] =
      List.filter (energyMatchesSpec ⟨0, 10, none, "asc", some "X", some 250, some "Y"⟩)
        [⟨1, "X", "Y", 250, 100, 5⟩, ⟨2, "P", "Q", 330, 80, 3⟩] ∧
    sneakerFilterStage ⟨0, 10, none, "asc", some "A", some 50, some 150, some "M"⟩
        [⟨1, "A", "M", 100, 0⟩, ⟨2, "B", "N", 200, 0⟩] =
      List.filter (sneakerMatchesSpec ⟨0, 10, none, "asc", some "A", some 50, some 150, some "M"⟩)
        [⟨1, "A", "M", 100, 0⟩, ⟨2, "B", "N", 200, 0⟩] :=
  filters_and_search_spec ⟨0, 10, none, "asc", some "X", some 250, some "Y"⟩
    [⟨1, "X", "Y", 250, 100, 5⟩, ⟨2, "P", "Q", 330, 80, 3⟩] (by decide) (by decide)
    ⟨0, 10, none, "asc", some "A", some 50, some 150, some "M"⟩
    [⟨1, "A", "M", 100, 0⟩, ⟨2, "B", "N", 200, 0⟩] (by decide) (by decide) (by decide)
